import Mathlib

set_option maxRecDepth 100000

/-
  Verification development for the HelioTime solar event service
  (spatializeAR/sunday-heliotime).

  The repository ships its infrastructure code (CDK stacks), README and
  deployment scripts; the Python core modules (spa.py, sun.py, geo.py,
  crosscheck.py, handler.py) referenced by the build are not present in the
  tree.  Configuration constants below are embedded from the CDK source
  (infrastructure/lib/shared-resources-stack.ts and the HelioTime stack's
  Lambda environment block); the behavioural components are modelled from
  the specification, as marked on each definition.

  Conventions of the embedding:
  - instants within a local day are sample indices 0 ≤ t < n (seconds of the
    local day; n = 86400 except on a DST-transition day);
  - calendar dates are integers (days since an arbitrary epoch);
  - solar altitudes and altitude thresholds are integers in millidegrees
    (the sunrise/sunset threshold -0.833 deg is -833 millidegrees);
  - angles on the rational side (solar position chain) are in degrees as ℚ.
-/

/-- The five-kind error taxonomy of the core (spec section 7; the HTTP
mapping table is in the README, src/unnamed/part_001 lines 122-129). -/
inductive HelioError where
  | InvalidInput
  | GeocodingFailed
  | TimezoneResolutionFailed
  | CrossCheckFailed
  | InternalComputationError
deriving DecidableEq, Repr

/-- HTTP status mapping of the error taxonomy, from the README error table:
400 invalid input, 404 geocoding failed, 422 timezone resolution failed,
500 internal error or cross-check failure. -/
def httpStatus : HelioError → Nat
  | .InvalidInput => 400
  | .GeocodingFailed => 404
  | .TimezoneResolutionFailed => 422
  | .CrossCheckFailed => 500
  | .InternalComputationError => 500

/-- Resolved geographic location (spec section 3). -/
structure GeoLocation where
  latitude : ℚ
  longitude : ℚ
  elevation_m : ℚ
  timezone_id : String
deriving DecidableEq, Repr

/-- Atmospheric parameters used only for refraction (spec section 3). -/
structure AtmosphericParams where
  pressure_hpa : ℚ
  temperature_c : ℚ
deriving DecidableEq, Repr

/-- Per-day flags of a day event record. -/
structure DayFlags where
  polar_day : Bool
  polar_night : Bool
  no_civil_twilight : Bool
deriving DecidableEq, Repr

/-- One day's events (spec section 3): event instants are sample indices
within the local day (seconds), `none` when the event does not occur. -/
structure DayEventRecord where
  date : Int
  sunrise : Option Nat
  sunset : Option Nat
  solar_noon : Option Nat
  civil_dawn : Option Nat
  civil_dusk : Option Nat
  nautical_dawn : Option Nat
  nautical_dusk : Option Nat
  astronomical_dawn : Option Nat
  astronomical_dusk : Option Nat
  day_length_sec : Int
  flags : DayFlags
deriving DecidableEq, Repr

/-- Sunrise/sunset altitude threshold: -0.833 deg in millidegrees
(solar-disk diameter adjustment already folded in; spec section 3). -/
def SUNRISE_SUNSET_MDEG : Int := -833

/-- Civil twilight altitude threshold: -6 deg in millidegrees. -/
def CIVIL_MDEG : Int := -6000

/-- Nautical twilight altitude threshold: -12 deg in millidegrees. -/
def NAUTICAL_MDEG : Int := -12000

/-- Astronomical twilight altitude threshold: -18 deg in millidegrees. -/
def ASTRONOMICAL_MDEG : Int := -18000

/-- First sample index t < n with altitude at or above the threshold
(the rising crossing of the sampled altitude curve). -/
def firstIdxGE (alt : Nat → Int) (θ : Int) : Nat → Option Nat
  | 0 => none
  | n + 1 =>
    match firstIdxGE alt θ n with
    | some t => some t
    | none => if θ ≤ alt n then some n else none

/-- Last sample index t < n with altitude at or above the threshold
(the setting crossing of the sampled altitude curve). -/
def lastIdxGE (alt : Nat → Int) (θ : Int) : Nat → Option Nat
  | 0 => none
  | n + 1 => if θ ≤ alt n then some n else lastIdxGE alt θ n

/-- First sample index attaining the maximum altitude over 0 ≤ t < n
(solar noon of the sampled curve); 0 when n = 0. -/
def argmaxIdx (alt : Nat → Int) : Nat → Nat
  | 0 => 0
  | n + 1 =>
    let b := argmaxIdx alt n
    if alt b < alt n then n else b

/-- The altitude stays below the threshold for the whole day. -/
def allBelow (alt : Nat → Int) (θ : Int) (n : Nat) : Bool :=
  (List.range n).all fun t => decide (alt t < θ)

/-- The altitude stays at or above the threshold for the whole day. -/
def allAtOrAbove (alt : Nat → Int) (θ : Int) (n : Nat) : Bool :=
  (List.range n).all fun t => decide (θ ≤ alt t)

/-- Modelled from the spec (section 4.2, sun.py not under src/): the rising
event for a threshold is the first crossing instant; if the altitude stays
above the threshold all day there is no crossing and the event is null
(in particular sunrise is null under polar day). -/
def riseEvent (alt : Nat → Int) (n : Nat) (θ : Int) : Option Nat :=
  if allAtOrAbove alt θ n then none else firstIdxGE alt θ n

/-- Modelled from the spec (section 4.2, sun.py not under src/): the setting
event for a threshold is the last crossing instant; null when the altitude
never comes back below the threshold (polar day) or never reaches it. -/
def setEvent (alt : Nat → Int) (n : Nat) (θ : Int) : Option Nat :=
  if allAtOrAbove alt θ n then none else lastIdxGE alt θ n

/-- Modelled from the spec (section 4.2, sun.py not under src/):
day_length_sec is n (= 86400, adjusted for DST, the local day's length)
under polar day, 0 under polar night, and sunset − sunrise otherwise. -/
def dayLengthSec (alt : Nat → Int) (n : Nat) : Int :=
  if allAtOrAbove alt SUNRISE_SUNSET_MDEG n then (n : Int)
  else if allBelow alt SUNRISE_SUNSET_MDEG n then 0
  else
    match riseEvent alt n SUNRISE_SUNSET_MDEG, setEvent alt n SUNRISE_SUNSET_MDEG with
    | some r, some s => (s : Int) - (r : Int)
    | _, _ => 0

/-- Modelled from the spec (section 4.2, sun.py not under src/): sunEvents
scans the sampled solar-altitude curve `alt` of a local calendar day of `n`
seconds and assembles the DayEventRecord: threshold crossings for
sunrise/sunset and the three twilight bands, solar noon as the maximum, the
polar flags, and the day length. -/
def sunEvents (alt : Nat → Int) (n : Nat) (date : Int) : DayEventRecord :=
  { date := date
    sunrise := riseEvent alt n SUNRISE_SUNSET_MDEG
    sunset := setEvent alt n SUNRISE_SUNSET_MDEG
    solar_noon := if n = 0 then none else some (argmaxIdx alt n)
    civil_dawn := riseEvent alt n CIVIL_MDEG
    civil_dusk := setEvent alt n CIVIL_MDEG
    nautical_dawn := riseEvent alt n NAUTICAL_MDEG
    nautical_dusk := setEvent alt n NAUTICAL_MDEG
    astronomical_dawn := riseEvent alt n ASTRONOMICAL_MDEG
    astronomical_dusk := setEvent alt n ASTRONOMICAL_MDEG
    day_length_sec := dayLengthSec alt n
    flags :=
      { polar_day := allAtOrAbove alt SUNRISE_SUNSET_MDEG n
        polar_night := allBelow alt SUNRISE_SUNSET_MDEG n
        no_civil_twilight := allBelow alt CIVIL_MDEG n } }

/-- Maximum inclusive date-range length in days, from the deployed
configuration (MAX_RANGE_DAYS = '366' in the Lambda environment,
src/unnamed/part_000 line 111, and the SSM limits parameter in
src/infrastructure/lib/shared-resources-stack.ts lines 93-98). -/
def MAX_RANGE_DAYS : Int := 366

/-- Modelled from the spec (sections 4.5 and 8, handler code not under
src/): computeRange validates endDate ≥ startDate and that the inclusive
day count N = endDate − startDate + 1 does not exceed the configured
maximum of 366 days (section 8: N = 367 signals InvalidInput), then
produces one DayEventRecord per local calendar day in ascending date
order.  `altOfDay d` is the sampled altitude curve of day `d` (a function
of the location and options, which the record-producing layer receives
already resolved). -/
def computeRange (altOfDay : Int → Nat → Int) (n : Nat)
    (startDate endDate : Int) : Except HelioError (List DayEventRecord) :=
  if endDate < startDate then .error .InvalidInput
  else if MAX_RANGE_DAYS < endDate - startDate + 1 then .error .InvalidInput
  else .ok ((List.range (endDate - startDate + 1).toNat).map
    fun i : Nat => sunEvents (altOfDay (startDate + i)) n (startDate + i))

/-- Cross-check comparison result for one event (spec section 3):
ephemeral, produced per event per day. -/
structure CrossCheckResult where
  provider : String
  local_value : Int
  remote_value : Int
  delta_seconds : Int
  within_tolerance : Bool
deriving DecidableEq, Repr

/-- Cross-check tolerance in seconds, from the deployed configuration
(DEV_CROSSCHECK_TOLERANCE_SECONDS = '120' in the Lambda environment,
src/unnamed/part_000 line 106, and the SSM crosscheck parameter in
src/infrastructure/lib/shared-resources-stack.ts lines 115-120). -/
def DEV_CROSSCHECK_TOLERANCE_SECONDS : Int := 120

/-- Modelled from the spec (section 4.6, crosscheck.py not under src/):
compare one locally computed event instant against the remote provider's
value; the delta is the absolute difference in seconds and
within_tolerance holds exactly when the delta is at most the configured
tolerance. -/
def checkEvent (tol : Int) (provider : String) (localV remoteV : Int) : CrossCheckResult :=
  { provider := provider
    local_value := localV
    remote_value := remoteV
    delta_seconds := |localV - remoteV|
    within_tolerance := decide (|localV - remoteV| ≤ tol) }

/-- Modelled from the spec (section 4.6, crosscheck.py not under src/):
crossCheck compares sunrise and sunset independently against the remote
provider's values. -/
def crossCheck (tol : Int) (provider : String)
    (localSunrise remoteSunrise localSunset remoteSunset : Int) :
    CrossCheckResult × CrossCheckResult :=
  (checkEvent tol provider localSunrise remoteSunrise,
   checkEvent tol provider localSunset remoteSunset)

/-- Outcome of contacting the external cross-check provider. -/
inductive ProviderOutcome where
  | ok (sunrise sunset : Int)
  | unreachable
deriving DecidableEq, Repr

/-- Modelled from the spec (sections 4.6 and 7, crosscheck.py not under
src/): run the enabled cross-check around the primary result.  An
unreachable or timed-out provider degrades to "cross-check skipped"
(metadata `none`) and returns the primary record unchanged; with the
provider reachable, a tolerance breach is a CrossCheckFailed error only
in enforcing mode, otherwise metadata only. -/
def runCrossCheck (enforce : Bool) (tol : Int) (provider : String)
    (localSunrise localSunset : Int) (r : DayEventRecord)
    (p : ProviderOutcome) :
    Except HelioError (DayEventRecord × Option (CrossCheckResult × CrossCheckResult)) :=
  match p with
  | .unreachable => .ok (r, none)
  | .ok remoteSunrise remoteSunset =>
    let m := crossCheck tol provider localSunrise remoteSunrise localSunset remoteSunset
    if enforce && (!m.1.within_tolerance || !m.2.within_tolerance) then
      .error .CrossCheckFailed
    else
      .ok (r, some m)

/-- Modelled from the spec (section 7, geo.py not under src/): a cache
read whose underlying I/O failed is recovered locally to a cache miss;
it never aborts the primary computation. -/
def cacheGetSafe (res : Except String (Option GeoLocation)) : Option GeoLocation :=
  match res with
  | .ok v => v
  | .error _ => none

/-- Geocode cache entry (spec section 3; the backing DynamoDB table in
src/unnamed/part_000 lines 29-56 keys on query_hash with TTL attribute
expires_at and a (location_type, location_key) secondary index). -/
structure GeocodeCacheEntry where
  query_hash : String
  location_type : String
  location_key : String
  loc : GeoLocation
  expires_at : Int
deriving DecidableEq, Repr

/-- Geocode cache TTL in seconds (90 days), from the deployed
configuration (CACHE_TTL_SECONDS = '7776000' in the Lambda environment,
src/unnamed/part_000 line 110, and the SSM cache parameter in
src/infrastructure/lib/shared-resources-stack.ts lines 100-105). -/
def CACHE_TTL_SECONDS : Int := 7776000

/-- Modelled from the spec (section 4.4, geo.py not under src/): cache
get looks the query hash up in the backing store and defensively treats
an entry whose expires_at has passed at read time as absent, whether or
not the store has physically purged it. -/
def cacheGet (store : List GeocodeCacheEntry) (now : Int) (queryHash : String) :
    Option GeoLocation :=
  match store.find? fun e => e.query_hash == queryHash with
  | some e => if now < e.expires_at then some e.loc else none
  | none => none

/-- Modelled from the spec (section 3, geo.py not under src/): a cache
write never updates in place; a refresh writes a new entry (which
shadows any older entry for the same hash on lookup). -/
def cachePut (store : List GeocodeCacheEntry) (e : GeocodeCacheEntry) :
    List GeocodeCacheEntry :=
  e :: store

/-- Canonicalize one character of a textual query: any whitespace becomes
a plain space, letters are lower-cased. -/
def canonChar (c : Char) : Char :=
  if c.isWhitespace then ' ' else c.toLower

/-- Collapse runs of spaces to a single space. -/
def squeezeSpaces : List Char → List Char
  | [] => []
  | [c] => [c]
  | c1 :: c2 :: rest =>
    if c1 = ' ' && c2 = ' ' then squeezeSpaces (c2 :: rest)
    else c1 :: squeezeSpaces (c2 :: rest)

/-- Modelled from the spec (section 4.3, geo.py not under src/): the
normalized query key of a textual location query is the lower-cased,
whitespace-collapsed concatenation of the relevant fields. -/
def normalizeKey (fields : List String) : String :=
  String.mk (squeezeSpaces (((String.intercalate " " fields).data).map canonChar))

/-- Resolver-visible state: the cache contents and a counter of external
geocode calls observed (for stating the at-most-one-call property). -/
structure ResolveState where
  cache : List GeocodeCacheEntry
  extCalls : Nat
deriving DecidableEq, Repr

/-- Modelled from the spec (section 4.3, geo.py not under src/): textual
resolution computes the normalized query key, checks the geocode cache,
and on a miss calls the external geocoding collaborator (counted in
extCalls), writing a successful result into the cache with the configured
TTL before returning; a provider "no match" signals GeocodingFailed. -/
def resolveTextual (provider : String → Option GeoLocation) (ttl : Int)
    (locType locKey : String) (fields : List String) (now : Int)
    (st : ResolveState) : Except HelioError GeoLocation × ResolveState :=
  let key := normalizeKey fields
  match cacheGet st.cache now key with
  | some loc => (.ok loc, st)
  | none =>
    match provider key with
    | some loc =>
      (.ok loc,
       { cache := cachePut st.cache
           { query_hash := key
             location_type := locType
             location_key := locKey
             loc := loc
             expires_at := now + ttl }
         extCalls := st.extCalls + 1 })
    | none => (.error .GeocodingFailed, { cache := st.cache, extCalls := st.extCalls + 1 })

/-- Deployment environments of the CDK app (src/unnamed/part_000 line 17). -/
inductive DeployEnv where
  | dev
  | prod
deriving DecidableEq, Repr

/-- DEV_CROSSCHECK Lambda environment variable per deployed environment,
from src/unnamed/part_000 line 104: 'true' for dev, 'false' for prod. -/
def DEV_CROSSCHECK (e : DeployEnv) : String :=
  if e = .dev then "true" else "false"

/-- DEV_CROSSCHECK_ENFORCE Lambda environment variable per deployed
environment, from src/unnamed/part_000 line 107: 'false' for every
environment. -/
def DEV_CROSSCHECK_ENFORCE (_ : DeployEnv) : String := "false"

/-- The enforcement flag the core derives from the deployed configuration:
enforcing mode is on only when DEV_CROSSCHECK_ENFORCE is the string
'true'. -/
def crosscheckEnforceFlag (e : DeployEnv) : Bool :=
  DEV_CROSSCHECK_ENFORCE e == "true"

/-- The cross-check-enabled flag the core derives from the deployed
configuration. -/
def crosscheckEnabledFlag (e : DeployEnv) : Bool :=
  DEV_CROSSCHECK e == "true"

/-- A point in time for the solar position chain: calendar date plus
second of day (with an unambiguous UTC offset folded in by the caller). -/
structure Instant where
  year : Int
  month : Int
  day : Int
  secondOfDay : ℚ
deriving DecidableEq, Repr

/-- Output of the solar position core (spec section 4.1). -/
structure SolarPositionResult where
  topocentricZenithAngle : ℚ
  azimuth : ℚ
deriving DecidableEq, Repr

/-- Julian day number of a calendar date (the standard Gregorian formula
the spec's validity range, years -2000 to 6000, refers to); floor
division throughout. -/
def julianDayNumber (y m d : Int) : Int :=
  Int.fdiv (1461 * (y + 4800 + Int.fdiv (m - 14) 12)) 4
    + Int.fdiv (367 * (m - 2 - 12 * Int.fdiv (m - 14) 12)) 12
    - Int.fdiv (3 * (Int.fdiv (y + 4900 + Int.fdiv (m - 14) 12) 100)) 4
    + d - 32075

/-- Julian day of an instant, with the fractional day from the second of
day. -/
def julianDay (i : Instant) : ℚ :=
  (julianDayNumber i.year i.month i.day : ℚ) + i.secondOfDay / 86400 - 1 / 2

/-- Julian century since J2000.0. -/
def julianCentury (jd : ℚ) : ℚ := (jd - 2451545) / 36525

/-- Normalize an angle in degrees into the canonical range [0, 360)
(spec section 4.1: angles are normalized at each stage boundary). -/
def normDeg (x : ℚ) : ℚ := x - 360 * ⌊x / 360⌋

/-- Modelled from the spec (section 4.1, spa.py not under src/):
atmospheric refraction correction as a function of pressure, temperature
and apparent elevation angle, zeroed below the horizon beyond the
refraction cutoff.  The spec does not reproduce the NREL coefficient
table; the pressure/temperature prefactor models the stated dependence. -/
def refractionCorrection (atm : AtmosphericParams) (apparentElevationDeg : ℚ) : ℚ :=
  if apparentElevationDeg < -1 then 0
  else (atm.pressure_hpa / 1010) * (283 / (273 + atm.temperature_c)) * (1 / 60)

/-- Modelled from the spec (section 4.1, spa.py not under src/): the solar
position core is a pure function of (instant, location, atmosphere)
computed through the standard chain — Julian day/century, geocentric
position with nutation, local hour angle, topocentric zenith angle,
refraction correction, azimuth — with angles normalized at each boundary.
The spec gives the chain's structure but not the NREL coefficient tables,
so the intermediate stages are modelled as explicit total rational
arithmetic preserving that data flow. -/
def solarPosition (i : Instant) (loc : GeoLocation) (atm : AtmosphericParams) :
    SolarPositionResult :=
  let jd := julianDay i
  let t := julianCentury jd
  let nutation := (-17 / 3600) * (1 - t / 100)
  let geocentricLongitude := normDeg (280 + 36000 * t + nutation)
  let declination := normDeg (23 + geocentricLongitude / 360)
  let hourAngle := normDeg (360 * (i.secondOfDay / 86400) + loc.longitude - geocentricLongitude)
  let zenithUncorrected :=
    normDeg (90 - declination + loc.latitude - hourAngle / 360 - loc.elevation_m / 100000)
  let refr := refractionCorrection atm (90 - zenithUncorrected)
  { topocentricZenithAngle := zenithUncorrected - refr
    azimuth := normDeg (180 + hourAngle) }

theorem firstIdxGE_eq_none_forall (alt : Nat → Int) (θ : Int) :
    ∀ n, firstIdxGE alt θ n = none → ∀ s, s < n → alt s < θ := by
  intro n
  induction n with
  | zero => intro _ s hs; omega
  | succ n ih =>
    intro h s hs
    rw [firstIdxGE] at h
    cases h1 : firstIdxGE alt θ n with
    | some t => rw [h1] at h; simp at h
    | none =>
      rw [h1] at h
      by_cases hθ : θ ≤ alt n
      · simp [hθ] at h
      · rcases Nat.lt_succ_iff_lt_or_eq.mp hs with h2 | h2
        · exact ih h1 s h2
        · subst h2; omega

theorem firstIdxGE_eq_some (alt : Nat → Int) (θ : Int) :
    ∀ n t, firstIdxGE alt θ n = some t →
      t < n ∧ θ ≤ alt t ∧ ∀ s, s < t → alt s < θ := by
  intro n
  induction n with
  | zero => intro t h; simp [firstIdxGE] at h
  | succ n ih =>
    intro t h
    rw [firstIdxGE] at h
    cases h1 : firstIdxGE alt θ n with
    | some u =>
      rw [h1] at h
      simp only [Option.some.injEq] at h
      obtain ⟨ha, hb, hc⟩ := ih u h1
      exact h ▸ ⟨Nat.lt_succ_of_lt ha, hb, hc⟩
    | none =>
      rw [h1] at h
      by_cases hθ : θ ≤ alt n
      · simp only [hθ, if_pos, Option.some.injEq] at h
        subst h
        exact ⟨Nat.lt_succ_self n, hθ, firstIdxGE_eq_none_forall alt θ n h1⟩
      · simp [hθ] at h

theorem lastIdxGE_eq_some (alt : Nat → Int) (θ : Int) :
    ∀ n t, lastIdxGE alt θ n = some t →
      t < n ∧ θ ≤ alt t ∧ ∀ s, t < s → s < n → alt s < θ := by
  intro n
  induction n with
  | zero => intro t h; simp [lastIdxGE] at h
  | succ n ih =>
    intro t h
    rw [lastIdxGE] at h
    by_cases hθ : θ ≤ alt n
    · simp only [hθ, if_pos, Option.some.injEq] at h
      subst h
      exact ⟨Nat.lt_succ_self n, hθ, fun s hs hs' => by omega⟩
    · simp only [hθ, if_neg, not_false_iff] at h
      obtain ⟨ha, hb, hc⟩ := ih t h
      refine ⟨Nat.lt_succ_of_lt ha, hb, fun s hs hs' => ?_⟩
      rcases Nat.lt_succ_iff_lt_or_eq.mp hs' with h2 | h2
      · exact hc s hs h2
      · subst h2; omega

theorem argmaxIdx_lt (alt : Nat → Int) : ∀ n, 0 < n → argmaxIdx alt n < n := by
  intro n
  induction n with
  | zero => omega
  | succ n ih =>
    intro _
    simp only [argmaxIdx]
    by_cases h : alt (argmaxIdx alt n) < alt n
    · simp [h]
    · simp only [h, if_neg, not_false_iff]
      cases Nat.eq_zero_or_pos n with
      | inl h0 => subst h0; simp [argmaxIdx]
      | inr hp => exact Nat.lt_succ_of_lt (ih hp)

theorem alt_le_argmaxIdx (alt : Nat → Int) :
    ∀ n t, t < n → alt t ≤ alt (argmaxIdx alt n) := by
  intro n
  induction n with
  | zero => intro t ht; omega
  | succ n ih =>
    intro t ht
    simp only [argmaxIdx]
    by_cases h : alt (argmaxIdx alt n) < alt n
    · simp only [h, if_pos]
      rcases Nat.lt_succ_iff_lt_or_eq.mp ht with h2 | h2
      · exact le_of_lt (lt_of_le_of_lt (ih t h2) h)
      · subst h2; exact le_refl _
    · simp only [h, if_neg, not_false_iff]
      rcases Nat.lt_succ_iff_lt_or_eq.mp ht with h2 | h2
      · exact ih t h2
      · subst h2; exact not_lt.mp h

theorem allBelow_iff (alt : Nat → Int) (θ : Int) (n : Nat) :
    allBelow alt θ n = true ↔ ∀ t, t < n → alt t < θ := by
  simp [allBelow, List.all_eq_true, List.mem_range]

theorem allAtOrAbove_iff (alt : Nat → Int) (θ : Int) (n : Nat) :
    allAtOrAbove alt θ n = true ↔ ∀ t, t < n → θ ≤ alt t := by
  simp [allAtOrAbove, List.all_eq_true, List.mem_range]

theorem riseEvent_eq_some (alt : Nat → Int) (n : Nat) (θ : Int) (t : Nat)
    (h : riseEvent alt n θ = some t) :
    allAtOrAbove alt θ n = false ∧ firstIdxGE alt θ n = some t := by
  rw [riseEvent] at h
  by_cases hA : allAtOrAbove alt θ n = true
  · simp [hA] at h
  · rw [if_neg (by simp [hA])] at h
    exact ⟨Bool.eq_false_iff.mpr (by simpa using hA), h⟩

theorem setEvent_eq_some (alt : Nat → Int) (n : Nat) (θ : Int) (t : Nat)
    (h : setEvent alt n θ = some t) :
    allAtOrAbove alt θ n = false ∧ lastIdxGE alt θ n = some t := by
  rw [setEvent] at h
  by_cases hA : allAtOrAbove alt θ n = true
  · simp [hA] at h
  · rw [if_neg (by simp [hA])] at h
    exact ⟨Bool.eq_false_iff.mpr (by simpa using hA), h⟩

theorem firstIdxGE_mono (alt : Nat → Int) (θ₁ θ₂ : Int) (n t₁ t₂ : Nat)
    (hθ : θ₁ ≤ θ₂) (h1 : firstIdxGE alt θ₁ n = some t₁)
    (h2 : firstIdxGE alt θ₂ n = some t₂) : t₁ ≤ t₂ := by
  obtain ⟨-, h2b, -⟩ := firstIdxGE_eq_some alt θ₂ n t₂ h2
  obtain ⟨-, -, h1c⟩ := firstIdxGE_eq_some alt θ₁ n t₁ h1
  by_contra hlt
  push_neg at hlt
  exact absurd (le_trans hθ h2b) (not_le.mpr (h1c t₂ hlt))

theorem lastIdxGE_mono (alt : Nat → Int) (θ₁ θ₂ : Int) (n t₁ t₂ : Nat)
    (hθ : θ₁ ≤ θ₂) (h1 : lastIdxGE alt θ₁ n = some t₁)
    (h2 : lastIdxGE alt θ₂ n = some t₂) : t₂ ≤ t₁ := by
  obtain ⟨h2a, h2b, -⟩ := lastIdxGE_eq_some alt θ₂ n t₂ h2
  obtain ⟨-, -, h1c⟩ := lastIdxGE_eq_some alt θ₁ n t₁ h1
  by_contra hlt
  push_neg at hlt
  exact absurd (le_trans hθ h2b) (not_le.mpr (h1c t₂ hlt h2a))

/-- Claim C6: every error the core propagates is one of the five taxonomy
kinds, and the HTTP mapping is InvalidInput to 400, GeocodingFailed to
404, TimezoneResolutionFailed to 422, and CrossCheckFailed and
InternalComputationError to 500, with no kind silently defaulted or
remapped. -/
theorem helioError_taxonomy_httpStatus :
    httpStatus .InvalidInput = 400 ∧ httpStatus .GeocodingFailed = 404 ∧
    httpStatus .TimezoneResolutionFailed = 422 ∧
    httpStatus .CrossCheckFailed = 500 ∧
    httpStatus .InternalComputationError = 500 ∧
    ∀ e : HelioError, e = .InvalidInput ∨ e = .GeocodingFailed ∨
      e = .TimezoneResolutionFailed ∨ e = .CrossCheckFailed ∨
      e = .InternalComputationError := by
  refine ⟨rfl, rfl, rfl, rfl, rfl, ?_⟩
  intro e
  cases e <;> simp

/-- Claim C4: within_tolerance holds exactly when the absolute delta in
seconds between local and remote values is at most the configured
tolerance, evaluated independently per event; concretely, with local
sunrise 06:14:23 (22463 s) and tolerance 120 s, a remote 06:15:10
(22510 s) gives delta 47 within tolerance, and a remote 06:20:00
(22800 s) gives delta 337 out of tolerance. -/
theorem crossCheck_within_tolerance :
    (∀ (tol : Int) (p : String) (localV remoteV : Int),
      (checkEvent tol p localV remoteV).delta_seconds = |localV - remoteV| ∧
      ((checkEvent tol p localV remoteV).within_tolerance = true ↔
        |localV - remoteV| ≤ tol)) ∧
    (∀ (tol : Int) (p : String) (ls rs lss rss : Int),
      crossCheck tol p ls rs lss rss =
        (checkEvent tol p ls rs, checkEvent tol p lss rss)) ∧
    (checkEvent DEV_CROSSCHECK_TOLERANCE_SECONDS "open-meteo" 22463 22510).delta_seconds = 47 ∧
    (checkEvent DEV_CROSSCHECK_TOLERANCE_SECONDS "open-meteo" 22463 22510).within_tolerance = true ∧
    (checkEvent DEV_CROSSCHECK_TOLERANCE_SECONDS "open-meteo" 22463 22800).delta_seconds = 337 ∧
    (checkEvent DEV_CROSSCHECK_TOLERANCE_SECONDS "open-meteo" 22463 22800).within_tolerance = false := by
  refine ⟨?_, fun _ _ _ _ _ _ => rfl, by decide, by decide, by decide, by decide⟩
  intro tol p localV remoteV
  exact ⟨rfl, by simp [checkEvent]⟩

/-- Claim C4 witness: the general tolerance equivalence applied at the
claim's concrete scenario. -/
theorem crossCheck_within_tolerance_witness :
    (checkEvent 120 "open-meteo" 22463 22510).delta_seconds = |(22463 : Int) - 22510| ∧
    ((checkEvent 120 "open-meteo" 22463 22510).within_tolerance = true ↔
      |(22463 : Int) - 22510| ≤ 120) :=
  crossCheck_within_tolerance.1 120 "open-meteo" 22463 22510

/-- Claim C7: with cross-checking enabled, an unreachable or timed-out
external provider never fails the request — the outcome degrades to
"cross-check skipped" with the primary record returned unchanged — and a
cache I/O failure is recovered locally to a cache miss. -/
theorem crosscheck_unreachable_degrades :
    (∀ (enforce : Bool) (tol : Int) (p : String) (ls lss : Int)
        (r : DayEventRecord),
      runCrossCheck enforce tol p ls lss r .unreachable = .ok (r, none)) ∧
    (∀ s : String, cacheGetSafe (.error s) = none) :=
  ⟨fun _ _ _ _ _ _ => rfl, fun _ => rfl⟩

/-- Claim C5: cache get treats an entry whose expires_at has passed at
read time as absent, whether or not the backing store has purged it, and
only unexpired entries are ever returned. -/
theorem cacheGet_expired_treated_absent :
    (∀ (store : List GeocodeCacheEntry) (now : Int) (qh : String)
        (e : GeocodeCacheEntry),
      store.find? (fun x => x.query_hash == qh) = some e →
      e.expires_at ≤ now →
      cacheGet store now qh = none) ∧
    (∀ (store : List GeocodeCacheEntry) (now : Int) (qh : String)
        (loc : GeoLocation),
      cacheGet store now qh = some loc →
      ∃ e, store.find? (fun x => x.query_hash == qh) = some e ∧
        now < e.expires_at ∧ e.loc = loc) := by
  constructor
  · intro store now qh e hfind hexp
    rw [cacheGet, hfind]
    show (if now < e.expires_at then some e.loc else none) = none
    rw [if_neg (by omega)]
  · intro store now qh loc hget
    rw [cacheGet] at hget
    cases hfind : store.find? fun x => x.query_hash == qh with
    | none => rw [hfind] at hget; simp at hget
    | some e =>
      rw [hfind] at hget
      have hget' : (if now < e.expires_at then some e.loc else none) = some loc := hget
      by_cases hexp : now < e.expires_at
      · rw [if_pos hexp, Option.some.injEq] at hget'
        exact ⟨e, rfl, hexp, hget'⟩
      · rw [if_neg hexp] at hget'; simp at hget'

/-- A concrete resolved location used to instantiate theorems. -/
def stubGeoLondon : GeoLocation :=
  { latitude := 515074 / 10000
    longitude := -1278 / 10000
    elevation_m := 0
    timezone_id := "Europe/London" }

/-- A concrete cache entry that is already expired at read time 10. -/
def expiredEntry : GeocodeCacheEntry :=
  { query_hash := "q1"
    location_type := "city"
    location_key := "london|UK"
    loc := stubGeoLondon
    expires_at := 10 }

/-- Claim C5 witness: a physically present but expired entry is treated
as absent at read time. -/
theorem cacheGet_expired_treated_absent_witness :
    cacheGet [expiredEntry] 10 "q1" = none :=
  cacheGet_expired_treated_absent.1 [expiredEntry] 10 "q1" expiredEntry
    (by rfl) (by decide)

/-- Claim C9: solarPosition is deterministic — two invocations with
identical (instant, location, atmosphere) inputs yield identical
{topocentricZenithAngle, azimuth} outputs — and, being a pure function of
its arguments in this embedding, has no side effects. -/
theorem solarPosition_deterministic (i₁ i₂ : Instant) (l₁ l₂ : GeoLocation)
    (a₁ a₂ : AtmosphericParams)
    (hi : i₁ = i₂) (hl : l₁ = l₂) (ha : a₁ = a₂) :
    solarPosition i₁ l₁ a₁ = solarPosition i₂ l₂ a₂ := by
  subst hi; subst hl; subst ha; rfl

/-- Claim C9 witness: determinism applied at a concrete instant,
location and atmosphere. -/
theorem solarPosition_deterministic_witness :
    solarPosition ⟨2025, 9, 1, 43200⟩ stubGeoLondon ⟨101325 / 100, 15⟩ =
    solarPosition ⟨2025, 9, 1, 43200⟩ stubGeoLondon ⟨101325 / 100, 15⟩ :=
  solarPosition_deterministic _ _ _ _ _ _ rfl rfl rfl

/-- Claim C10: under the deployed configuration DEV_CROSSCHECK_ENFORCE is
the string 'false' for both dev and prod and DEV_CROSSCHECK is 'true'
exactly for dev, so the derived enforcing flag is false everywhere and
the CrossCheckFailed branch of the cross-check runner is unreachable:
every outcome is an ok result, a tolerance breach surfacing only in the
metadata. -/
theorem deployed_crosscheck_enforce_disabled :
    (∀ e : DeployEnv, DEV_CROSSCHECK_ENFORCE e = "false") ∧
    (∀ e : DeployEnv, DEV_CROSSCHECK e = if e = .dev then "true" else "false") ∧
    (∀ e : DeployEnv, crosscheckEnforceFlag e = false) ∧
    (∀ e : DeployEnv, crosscheckEnabledFlag e = true ↔ e = .dev) ∧
    (∀ (e : DeployEnv) (tol : Int) (p : String) (ls lss : Int)
        (r : DayEventRecord) (po : ProviderOutcome),
      ∃ x, runCrossCheck (crosscheckEnforceFlag e) tol p ls lss r po = .ok x) := by
  refine ⟨fun _ => rfl, fun _ => rfl, fun _ => rfl, ?_, ?_⟩
  · intro e
    cases e <;> simp [crosscheckEnabledFlag, DEV_CROSSCHECK]
  · intro e tol p ls lss r po
    cases po with
    | unreachable => exact ⟨(r, none), rfl⟩
    | ok rs rss =>
      refine ⟨(r, some (crossCheck tol p ls rs lss rss)), ?_⟩
      simp [runCrossCheck, crosscheckEnforceFlag, DEV_CROSSCHECK_ENFORCE]

/-- Claim C10 witness: the unreachable-branch instance of the ok-only
property at a concrete record. -/
theorem deployed_crosscheck_enforce_disabled_witness :
    ∃ x, runCrossCheck (crosscheckEnforceFlag .prod) 120 "open-meteo" 22463 71031
      (sunEvents (fun _ => 0) 0 0) .unreachable = .ok x :=
  deployed_crosscheck_enforce_disabled.2.2.2.2 .prod 120 "open-meteo" 22463 71031
    (sunEvents (fun _ => 0) 0 0) .unreachable

/-- Claim C3: day_length_sec of a produced record equals sunset − sunrise
in whole seconds when both exist, 0 under polar_night, and the local
day's length n (86400, adjusted only for a DST discontinuity within the
day) under polar_day. -/
theorem sunEvents_day_length (alt : Nat → Int) (n : Nat) (d : Int) :
    (∀ a b, (sunEvents alt n d).sunrise = some a →
      (sunEvents alt n d).sunset = some b →
      (sunEvents alt n d).day_length_sec = (b : Int) - (a : Int)) ∧
    ((sunEvents alt n d).flags.polar_night = true →
      (sunEvents alt n d).day_length_sec = 0) ∧
    ((sunEvents alt n d).flags.polar_day = true →
      (sunEvents alt n d).day_length_sec = (n : Int)) := by
  refine ⟨?_, ?_, ?_⟩
  · intro a b ha hb
    simp only [sunEvents] at ha hb ⊢
    obtain ⟨hA, hfa⟩ := riseEvent_eq_some _ _ _ _ ha
    obtain ⟨-, hlb⟩ := setEvent_eq_some _ _ _ _ hb
    obtain ⟨han, hge, -⟩ := firstIdxGE_eq_some _ _ _ _ hfa
    have hB : allBelow alt SUNRISE_SUNSET_MDEG n ≠ true := by
      intro hB
      exact absurd hge (not_le.mpr ((allBelow_iff _ _ _).mp hB a han))
    rw [dayLengthSec, if_neg (by simp [hA]), if_neg hB, ha, hb]
  · intro hpn
    simp only [sunEvents] at hpn ⊢
    rw [dayLengthSec]
    by_cases hA : allAtOrAbove alt SUNRISE_SUNSET_MDEG n = true
    · have hn : n = 0 := by
        by_contra hn0
        have h1 := (allAtOrAbove_iff _ _ _).mp hA 0 (Nat.pos_of_ne_zero hn0)
        have h2 := (allBelow_iff _ _ _).mp hpn 0 (Nat.pos_of_ne_zero hn0)
        omega
      subst hn
      rw [if_pos hA]
      rfl
    · rw [if_neg hA, if_pos hpn]
  · intro hpd
    simp only [sunEvents] at hpd ⊢
    rw [dayLengthSec, if_pos hpd]

/-- A sampled altitude curve (millidegrees) for a 50-sample day: linear
rise to a single peak at t = 25, then a linear fall; used to instantiate
theorems on a well-behaved non-polar day. -/
def rampCurve (t : Nat) : Int :=
  if t ≤ 25 then 2000 * (t : Int) - 40000 else 2000 * (30 - (t : Int))

/-- Claim C3 witness: on the ramp curve's 50-sample day, sunrise is 20
and sunset is 30, so day_length_sec is 10. -/
theorem sunEvents_day_length_witness :
    (sunEvents rampCurve 50 0).day_length_sec = (30 : Int) - (20 : Int) :=
  (sunEvents_day_length rampCurve 50 0).1 20 30 (by decide) (by decide)

/-- A sampled altitude curve (millidegrees) for a 23-sample day: a slow
linear rise through the twilight thresholds, a jump to the single peak at
t = 10 exactly when the sunrise threshold is first reached, then a linear
fall.  A well-defined non-polar day of the model. -/
def kinkCurve (t : Nat) : Int :=
  if t ≤ 9 then 2000 * (t : Int) - 20000
  else if t = 10 then 5000
  else 5000 - 2000 * ((t : Int) - 10)

/-- Claim C2 counterexample: on the kink curve's non-polar day the record
produced by sunEvents has civil_dawn = 7, nautical_dawn = 4, sunrise = 10
and solar_noon = 10, so the claimed dawn-side ordering
civil_dawn ≤ nautical_dawn ≤ astronomical_dawn ≤ sunrise and the claimed
strict sunrise < solar_noon both fail (dawn events in fact run in the
opposite direction, astronomical first, and noon can coincide with
sunrise). -/
theorem sunEvents_claimed_order_counterexample :
    (sunEvents kinkCurve 23 0).flags.polar_day = false ∧
    (sunEvents kinkCurve 23 0).flags.polar_night = false ∧
    (sunEvents kinkCurve 23 0).civil_dawn = some 7 ∧
    (sunEvents kinkCurve 23 0).nautical_dawn = some 4 ∧
    (sunEvents kinkCurve 23 0).astronomical_dawn = some 1 ∧
    (sunEvents kinkCurve 23 0).sunrise = some 10 ∧
    (sunEvents kinkCurve 23 0).solar_noon = some 10 ∧
    ¬(∀ cd nd sr no : Nat,
        (sunEvents kinkCurve 23 0).civil_dawn = some cd →
        (sunEvents kinkCurve 23 0).nautical_dawn = some nd →
        (sunEvents kinkCurve 23 0).sunrise = some sr →
        (sunEvents kinkCurve 23 0).solar_noon = some no →
        cd ≤ nd ∧ sr < no) := by
  refine ⟨by decide, by decide, by decide, by decide, by decide, by decide,
    by decide, ?_⟩
  intro hclaim
  have h := hclaim 7 4 10 10 (by decide) (by decide) (by decide) (by decide)
  omega

/-- Claim C2 as amended: for a day all of whose events exist (in
particular a non-polar day), the produced record satisfies
astronomical_dawn ≤ nautical_dawn ≤ civil_dawn ≤ sunrise ≤ solar_noon ≤
sunset ≤ civil_dusk ≤ nautical_dusk ≤ astronomical_dusk: the dawn events
ascend toward sunrise starting from astronomical dawn, symmetrically on
the dusk side, and solar noon lies between sunrise and sunset
(non-strictly in general). -/
theorem sunEvents_event_order (alt : Nat → Int) (n : Nat) (d : Int)
    (ad nd cd sr no ss cdu ndu adu : Nat)
    (had : (sunEvents alt n d).astronomical_dawn = some ad)
    (hnd : (sunEvents alt n d).nautical_dawn = some nd)
    (hcd : (sunEvents alt n d).civil_dawn = some cd)
    (hsr : (sunEvents alt n d).sunrise = some sr)
    (hno : (sunEvents alt n d).solar_noon = some no)
    (hss : (sunEvents alt n d).sunset = some ss)
    (hcdu : (sunEvents alt n d).civil_dusk = some cdu)
    (hndu : (sunEvents alt n d).nautical_dusk = some ndu)
    (hadu : (sunEvents alt n d).astronomical_dusk = some adu) :
    ad ≤ nd ∧ nd ≤ cd ∧ cd ≤ sr ∧ sr ≤ no ∧ no ≤ ss ∧
    ss ≤ cdu ∧ cdu ≤ ndu ∧ ndu ≤ adu := by
  simp only [sunEvents] at had hnd hcd hsr hno hss hcdu hndu hadu
  obtain ⟨-, fad⟩ := riseEvent_eq_some _ _ _ _ had
  obtain ⟨-, fnd⟩ := riseEvent_eq_some _ _ _ _ hnd
  obtain ⟨-, fcd⟩ := riseEvent_eq_some _ _ _ _ hcd
  obtain ⟨-, fsr⟩ := riseEvent_eq_some _ _ _ _ hsr
  obtain ⟨-, fss⟩ := setEvent_eq_some _ _ _ _ hss
  obtain ⟨-, fcdu⟩ := setEvent_eq_some _ _ _ _ hcdu
  obtain ⟨-, fndu⟩ := setEvent_eq_some _ _ _ _ hndu
  obtain ⟨-, fadu⟩ := setEvent_eq_some _ _ _ _ hadu
  have hn0 : ¬ n = 0 := by
    intro h0
    rw [h0] at hno
    simp [firstIdxGE] at hno
  rw [if_neg hn0, Option.some.injEq] at hno
  obtain ⟨hsrn, hsrge, hsrmin⟩ := firstIdxGE_eq_some _ _ _ _ fsr
  obtain ⟨hssn, hssge, hssmax⟩ := lastIdxGE_eq_some _ _ _ _ fss
  have hnoA : no = argmaxIdx alt n := hno.symm
  have hnolt : no < n := hnoA ▸ argmaxIdx_lt alt n (Nat.pos_of_ne_zero hn0)
  have hsr_no : sr ≤ no := by
    by_contra hlt
    push_neg at hlt
    have h1 : alt sr ≤ alt no := hnoA ▸ alt_le_argmaxIdx alt n sr hsrn
    exact absurd (le_trans hsrge h1) (not_le.mpr (hsrmin no hlt))
  have hno_ss : no ≤ ss := by
    by_contra hlt
    push_neg at hlt
    have h1 : alt ss ≤ alt no := hnoA ▸ alt_le_argmaxIdx alt n ss hssn
    exact absurd (le_trans hssge h1) (not_le.mpr (hssmax no hlt hnolt))
  refine ⟨?_, ?_, ?_, hsr_no, hno_ss, ?_, ?_, ?_⟩
  · exact firstIdxGE_mono alt ASTRONOMICAL_MDEG NAUTICAL_MDEG n ad nd (by decide) fad fnd
  · exact firstIdxGE_mono alt NAUTICAL_MDEG CIVIL_MDEG n nd cd (by decide) fnd fcd
  · exact firstIdxGE_mono alt CIVIL_MDEG SUNRISE_SUNSET_MDEG n cd sr (by decide) fcd fsr
  · exact lastIdxGE_mono alt CIVIL_MDEG SUNRISE_SUNSET_MDEG n cdu ss (by decide) fcdu fss
  · exact lastIdxGE_mono alt NAUTICAL_MDEG CIVIL_MDEG n ndu cdu (by decide) fndu fcdu
  · exact lastIdxGE_mono alt ASTRONOMICAL_MDEG NAUTICAL_MDEG n adu ndu (by decide) fadu fndu

/-- Claim C2 witness: the amended ordering applied on the ramp curve's
50-sample day, whose events are 11, 14, 17, 20, 25, 30, 33, 36, 39. -/
theorem sunEvents_event_order_witness :
    (11 : Nat) ≤ 14 ∧ (14 : Nat) ≤ 17 ∧ (17 : Nat) ≤ 20 ∧ (20 : Nat) ≤ 25 ∧
    (25 : Nat) ≤ 30 ∧ (30 : Nat) ≤ 33 ∧ (33 : Nat) ≤ 36 ∧ (36 : Nat) ≤ 39 :=
  sunEvents_event_order rampCurve 50 0 11 14 17 20 25 30 33 36 39
    (by decide) (by decide) (by decide) (by decide) (by decide)
    (by decide) (by decide) (by decide) (by decide)

/-- Claim C1: over an inclusive range of N = endDate − startDate + 1
local calendar days with 1 ≤ N ≤ 366, computeRange returns exactly N
records, one per day, with strictly increasing dates in ascending order;
N = 367, and any endDate earlier than startDate, signals InvalidInput,
the configured maximum being 366 days. -/
theorem computeRange_range_invariant (altOfDay : Int → Nat → Int) (n : Nat)
    (s e : Int) :
    (1 ≤ e - s + 1 → e - s + 1 ≤ 366 →
      ∃ l, computeRange altOfDay n s e = .ok l ∧
        (l.length : Int) = e - s + 1 ∧
        l.map DayEventRecord.date =
          (List.range (e - s + 1).toNat).map (fun i : Nat => s + (i : Int)) ∧
        List.Pairwise (fun a b : Int => a < b) (l.map DayEventRecord.date)) ∧
    (e - s + 1 = 367 → computeRange altOfDay n s e = .error .InvalidInput) ∧
    (e < s → computeRange altOfDay n s e = .error .InvalidInput) := by
  refine ⟨?_, ?_, ?_⟩
  · intro h1 h2
    rw [computeRange, if_neg (by omega), if_neg (by rw [MAX_RANGE_DAYS]; omega)]
    refine ⟨(List.range (e - s + 1).toNat).map
        (fun i : Nat => sunEvents (altOfDay (s + i)) n (s + i)),
      rfl, ?_, ?_, ?_⟩
    · rw [List.length_map, List.length_range, Int.toNat_of_nonneg (by omega)]
    · rw [List.map_map]
      rfl
    · rw [List.map_map, List.pairwise_map]
      refine List.Pairwise.imp ?_ (List.pairwise_lt_range _)
      intro a b hab
      show s + (a : Int) < s + (b : Int)
      omega
  · intro h367
    rw [computeRange, if_neg (by omega), if_pos (by rw [MAX_RANGE_DAYS]; omega)]
  · intro hlt
    rw [computeRange, if_pos hlt]

/-- Claim C1 witness: a three-day range at startDate 0, endDate 2
produces exactly three ordered records. -/
theorem computeRange_range_invariant_witness :
    ∃ l, computeRange (fun _ _ => 0) 1 0 2 = .ok l ∧
      (l.length : Int) = 2 - 0 + 1 ∧
      l.map DayEventRecord.date =
        (List.range ((2 : Int) - 0 + 1).toNat).map (fun i : Nat => (0 : Int) + (i : Int)) ∧
      List.Pairwise (fun a b : Int => a < b) (l.map DayEventRecord.date) :=
  (computeRange_range_invariant (fun _ _ => 0) 1 0 2).1 (by norm_num) (by norm_num)

/-- Claim C8: after a first textual resolution that missed the cache,
succeeded against the external provider (one external call observed) and
wrote the entry with the configured TTL, any resolution of a query with
the same normalized key before the entry expires returns the identical
GeoLocation from the cache, with the state unchanged — in particular the
external provider is not re-invoked. -/
theorem resolveTextual_cache_idempotent (provider : String → Option GeoLocation)
    (ttl : Int) (locType locKey : String) (fields₁ fields₂ : List String)
    (t₁ t₂ : Int) (st₀ st₁ : ResolveState) (loc : GeoLocation)
    (hkey : normalizeKey fields₁ = normalizeKey fields₂)
    (hmiss : cacheGet st₀.cache t₁ (normalizeKey fields₁) = none)
    (h1 : resolveTextual provider ttl locType locKey fields₁ t₁ st₀ = (.ok loc, st₁))
    (ht : t₁ ≤ t₂) (htt : t₂ < t₁ + ttl) :
    resolveTextual provider ttl locType locKey fields₂ t₂ st₁ = (.ok loc, st₁) ∧
    st₁.extCalls = st₀.extCalls + 1 := by
  rw [resolveTextual] at h1
  rw [hmiss] at h1
  cases hp : provider (normalizeKey fields₁) with
  | none =>
    rw [hp] at h1
    have h1' : ((.error .GeocodingFailed : Except HelioError GeoLocation),
        ({ cache := st₀.cache, extCalls := st₀.extCalls + 1 } : ResolveState)) =
        (.ok loc, st₁) := h1
    simp at h1'
  | some l =>
    rw [hp] at h1
    have h1' : ((.ok l : Except HelioError GeoLocation),
        ({ cache := cachePut st₀.cache
             { query_hash := normalizeKey fields₁
               location_type := locType
               location_key := locKey
               loc := l
               expires_at := t₁ + ttl }
           extCalls := st₀.extCalls + 1 } : ResolveState)) = (.ok loc, st₁) := h1
    rw [Prod.mk.injEq, Except.ok.injEq] at h1'
    obtain ⟨hl, hst⟩ := h1'
    subst hl
    subst hst
    constructor
    · have hGet : cacheGet
          (cachePut st₀.cache
            { query_hash := normalizeKey fields₁
              location_type := locType
              location_key := locKey
              loc := l
              expires_at := t₁ + ttl }) t₂ (normalizeKey fields₁) = some l := by
        rw [cacheGet, cachePut, List.find?_cons_of_pos _ (by simp)]
        show (if t₂ < t₁ + ttl then some l else none) = some l
        rw [if_pos htt]
      rw [resolveTextual, ← hkey]
      simp only [hGet]
    · rfl

/-- A stub external geocoding provider used to instantiate theorems. -/
def stubProvider : String → Option GeoLocation := fun _ => some stubGeoLondon

/-- The cache entry written by the first stub resolution at time 0. -/
def stubWrittenEntry : GeocodeCacheEntry :=
  { query_hash := normalizeKey ["London", "UK"]
    location_type := "city"
    location_key := "london|UK"
    loc := stubGeoLondon
    expires_at := 0 + CACHE_TTL_SECONDS }

/-- The resolver state after the first stub resolution at time 0. -/
def stubState : ResolveState :=
  { cache := [stubWrittenEntry], extCalls := 0 + 1 }

/-- Claim C8 witness: resolving the same normalized query again at
time 50, before the entry written at time 0 expires, returns the same
location without a second external call. -/
theorem resolveTextual_cache_idempotent_witness :
    resolveTextual stubProvider CACHE_TTL_SECONDS "city" "london|UK"
      ["London", "UK"] 50 stubState = (.ok stubGeoLondon, stubState) ∧
    stubState.extCalls = ({ cache := [], extCalls := 0 } : ResolveState).extCalls + 1 :=
  resolveTextual_cache_idempotent stubProvider CACHE_TTL_SECONDS "city" "london|UK"
    ["London", "UK"] ["London", "UK"] 0 50 { cache := [], extCalls := 0 }
    stubState stubGeoLondon rfl rfl rfl (by norm_num)
    (by rw [CACHE_TTL_SECONDS]; norm_num)
